import Mathlib

/-!
A verification development for the open-aircraft-tracker repository.

The development shallowly embeds the geospatial tracking core:
the normalized aircraft record (api/base.py), the mock motion simulator
(api/mock.py), the OpenSky bounding-box computation and radius filter
(api/opensky.py), the region tracker diff step (main.py), and the radar
screen projection (display/radar.py).

Numeric modelling choices:
- machine floats become rationals;
- the floating-point trigonometric and geodesic routines the source
  delegates to (math.cos, math.sin, math.atan2 composed with degree
  conversion, and geopy geodesic distance) are abstract rational-valued
  parameters bundled in the Geo structure, since none of the verified
  properties depend on their numeric values;
- the global pseudo-random stream seeded by random.seed is an abstract
  stream of draws in the unit interval together with a cursor index;
- wall-clock datetime values are explicit rational timestamps.
-/

set_option autoImplicit false

namespace OpenAircraftTracker

/-- Abstract numeric kernel: the floating-point routines the source calls.
cosdeg and sindeg stand for cosine and sine composed with degree-to-radian
conversion, atan2deg for the two-argument arctangent composed with
radian-to-degree conversion, and geod for geopy geodesic distance in km. -/
structure Geo where
  geod : ℚ × ℚ → ℚ × ℚ → ℚ
  cosdeg : ℚ → ℚ
  sindeg : ℚ → ℚ
  atan2deg : ℚ → ℚ → ℚ

/-- The normalized aircraft record of api/base.py (dataclass Aircraft). -/
structure Aircraft where
  icao24 : String
  callsign : Option String
  origin_country : Option String
  latitude : Option ℚ
  longitude : Option ℚ
  altitude : Option ℚ
  velocity : Option ℚ
  heading : Option ℚ
  vertical_rate : Option ℚ
  last_update : ℚ
  deriving DecidableEq

/-- An aircraft has a usable fix when both latitude and longitude are set
(the guard repeated in mock.py, opensky.py and radar.py). -/
def hasFix (a : Aircraft) : Bool :=
  a.latitude.isSome && a.longitude.isSome

/-- Position of an aircraft, meaningful when hasFix holds. -/
def posOf (a : Aircraft) : ℚ × ℚ :=
  (a.latitude.getD 0, a.longitude.getD 0)

/-- An aircraft carries the full motion data used by the simulator advance
step: position, heading and velocity (mock.py lines 66 to 69). -/
def fullData (a : Aircraft) : Bool :=
  a.latitude.isSome && a.longitude.isSome && a.heading.isSome && a.velocity.isSome

/-- Python dict as an insertion-ordered association list: assignment to an
existing key replaces its value in place, a fresh key is appended. -/
def dictUpsert (k : String) (v : Aircraft) : List (String × Aircraft) → List (String × Aircraft)
  | [] => [(k, v)]
  | e :: t => if e.1 = k then (k, v) :: t else e :: dictUpsert k v t

/-- Python dict lookup on the association-list model. -/
def dictFind (k : String) : List (String × Aircraft) → Option Aircraft
  | [] => none
  | e :: t => if e.1 = k then some e.2 else dictFind k t

/-- CPython random.uniform a b: a plus the unit draw scaled by b minus a. -/
def uniform (a b x : ℚ) : ℚ := a + (b - a) * x

/-- random.choice on a list, modelled as indexing by the scaled unit draw. -/
def pick {α : Type} (l : List α) (d : α) (x : ℚ) : α :=
  l.getD (Int.toNat ⌊x * l.length⌋) d

/-- random.randint a b, modelled as offsetting a by the scaled unit draw. -/
def randint (a b : ℤ) (x : ℚ) : ℤ := a + ⌊x * ((b : ℚ) - (a : ℚ) + 1)⌋

/-- The airline prefixes of MockAPI.AIRLINES (mock.py line 20). -/
def AIRLINES : List String :=
  ["SWR", "DLH", "BAW", "AFR", "KLM", "UAE", "QTR", "SIA", "AAL", "UAL"]

/-- The hexadecimal alphabet used by MockAPI._generate_icao24. -/
def HEXDIGITS : List Char :=
  String.toList "0123456789abcdef"

/-- MockAPI._generate_icao24: six draws, each picking a hex digit.
Returns the identifier and the advanced stream cursor. -/
def generate_icao24 (u : ℕ → ℚ) (n : ℕ) : String × ℕ :=
  (String.mk ((List.range 6).map fun i => pick HEXDIGITS '0' (u (n + i))), n + 6)

/-- MockAPI._generate_callsign: an airline code draw followed by a flight
number draw in the range 100 to 9999. -/
def generate_callsign (u : ℕ → ℚ) (n : ℕ) : String × ℕ :=
  (pick AIRLINES "SWR" (u n) ++ toString (randint 100 9999 (u (n + 1))), n + 2)

/-- State of a MockAPI instance: configured target count, the aircraft
cache dict, the datetime of the last applied tick, and the cursor into the
seeded random stream. -/
structure MockState where
  num_aircraft : ℕ
  aircraft_cache : List (String × Aircraft)
  last_update : ℚ
  rng : ℕ
  deriving DecidableEq

/-- MockAPI construction (mock.py lines 22 to 36): empty cache,
last_update set to the construction time, stream cursor at its origin. -/
def mkMockAPI (num_aircraft : ℕ) (now : ℚ) : MockState :=
  { num_aircraft := num_aircraft, aircraft_cache := [], last_update := now, rng := 0 }

/-- One iteration of the advance-and-retire loop of
MockAPI._update_aircraft_positions (mock.py lines 65 to 108): an entry
missing position, heading or velocity is skipped unchanged; otherwise the
position is advanced by dead reckoning and the entry is dropped when its
new geodesic distance from the center exceeds twice max_radius_km. -/
def advanceEntry (g : Geo) (time_diff current_time center_lat center_lon max_radius_km : ℚ)
    (a : Aircraft) : Option Aircraft :=
  match a.latitude, a.longitude, a.heading, a.velocity with
  | some lat, some lon, some hdg, some vel =>
    let velocity_kmh := vel * (36 / 10)
    let distance_km := velocity_kmh * time_diff / 3600
    let lat_km : ℚ := 110574 / 1000
    let lon_km : ℚ := (111320 / 1000) * g.cosdeg lat
    let new_lat := lat + distance_km * g.cosdeg hdg / lat_km
    let new_lon := lon + distance_km * g.sindeg hdg / lon_km
    if g.geod (center_lat, center_lon) (new_lat, new_lon) > max_radius_km * 2 then none
    else some { a with latitude := some new_lat, longitude := some new_lon,
                       last_update := current_time }
  | _, _, _, _ => some a

/-- The advance-and-retire phase over the whole cache. Each entry is
rewritten or deleted under its own key, so the pass is a filterMap that
preserves dict insertion order. -/
def advanceRetire (g : Geo) (time_diff current_time center_lat center_lon max_radius_km : ℚ)
    (cache : List (String × Aircraft)) : List (String × Aircraft) :=
  cache.filterMap fun e =>
    (advanceEntry g time_diff current_time center_lat center_lon max_radius_km e.2).map
      fun a => (e.1, a)

/-- One spawn of MockAPI._update_aircraft_positions (mock.py lines 110 to
146): a distance draw in the band from 0.8 to 1.5 times max_radius_km, a
bearing draw, a flat-earth offset from the center, then identifier,
callsign and cruise-parameter draws, in source order. -/
def spawnOne (g : Geo) (u : ℕ → ℚ) (n : ℕ)
    (current_time center_lat center_lon max_radius_km : ℚ) : Aircraft × ℕ :=
  let distance := uniform (max_radius_km * (8 / 10)) (max_radius_km * (15 / 10)) (u n)
  let bearing := uniform 0 360 (u (n + 1))
  let lat_km : ℚ := 110574 / 1000
  let lon_km : ℚ := (111320 / 1000) * g.cosdeg center_lat
  let new_lat := center_lat + distance * g.cosdeg bearing / lat_km
  let new_lon := center_lon + distance * g.sindeg bearing / lon_km
  let ic := generate_icao24 u (n + 2)
  let cs := generate_callsign u ic.2
  { icao24 := ic.1
    callsign := some cs.1
    origin_country := some "Mock Country"
    latitude := some new_lat
    longitude := some new_lon
    altitude := some (uniform 3000 12000 (u cs.2))
    velocity := some (uniform 200 300 (u (cs.2 + 1)))
    heading := some (uniform 0 360 (u (cs.2 + 2)))
    vertical_rate := some (uniform (-5) 5 (u (cs.2 + 3)))
    last_update := current_time } |> fun a => (a, cs.2 + 4)

/-- The spawn loop of MockAPI._update_aircraft_positions: while the cache
holds fewer than num entries, spawn one and insert it under its generated
identifier. Fuel bounds the iteration count; whenever every generated
identifier is fresh, num units of fuel reproduce the source loop exactly,
and the verified properties hold for every fuel value. -/
def spawnLoop (g : Geo) (u : ℕ → ℚ) (current_time center_lat center_lon max_radius_km : ℚ)
    (num : ℕ) : ℕ → List (String × Aircraft) × ℕ → List (String × Aircraft) × ℕ
  | 0, s => s
  | fuel + 1, (cache, n) =>
    if cache.length < num then
      let sp := spawnOne g u n current_time center_lat center_lon max_radius_km
      spawnLoop g u current_time center_lat center_lon max_radius_km num fuel
        (dictUpsert sp.1.icao24 sp.1 cache, sp.2)
    else (cache, n)

/-- MockAPI._update_aircraft_positions (mock.py lines 48 to 148): a no-op
when less than one second elapsed since last_update, otherwise the
advance-and-retire pass followed by the spawn loop, finishing by recording
the current time. -/
def update_aircraft_positions (g : Geo) (u : ℕ → ℚ)
    (current_time center_lat center_lon max_radius_km : ℚ) (s : MockState) : MockState :=
  let time_diff := current_time - s.last_update
  if time_diff < 1 then s
  else
    let cache1 := advanceRetire g time_diff current_time center_lat center_lon max_radius_km
      s.aircraft_cache
    let sp := spawnLoop g u current_time center_lat center_lon max_radius_km
      s.num_aircraft s.num_aircraft (cache1, s.rng)
    { s with aircraft_cache := sp.1, rng := sp.2, last_update := current_time }

/-- The distance filter shared by MockAPI.get_aircraft_in_radius (mock.py
lines 165 to 180) and the parsing loop of OpenSkyAPI.get_aircraft_in_radius
(opensky.py lines 116 to 129): keep a record exactly when it has a fix and
its geodesic distance from the center is at most radius_km. -/
def filterByRadius (g : Geo) (latitude longitude radius_km : ℚ)
    (l : List Aircraft) : List Aircraft :=
  l.filter fun a => hasFix a && decide (g.geod (latitude, longitude) (posOf a) ≤ radius_km)

/-- MockAPI.get_aircraft_in_radius (mock.py lines 150 to 185): tick the
simulator with max_radius_km set to three times the query radius, then
return the cached aircraft within the query radius. -/
def get_aircraft_in_radius (g : Geo) (u : ℕ → ℚ)
    (current_time latitude longitude radius_km : ℚ) (s : MockState) :
    List Aircraft × MockState :=
  let s2 := update_aircraft_positions g u current_time latitude longitude (radius_km * 3) s
  (filterByRadius g latitude longitude radius_km (s2.aircraft_cache.map Prod.snd), s2)

/-- One polling step for a driven simulator session: the accumulator holds
the outputs so far, the simulator state, and the absolute wall-clock time;
a tick supplies the elapsed delta since the previous call together with the
query arguments, and performs one get_aircraft_in_radius call. -/
def mockStep (g : Geo) (u : ℕ → ℚ)
    (acc : List (List Aircraft) × MockState × ℚ) (tk : ℚ × ℚ × ℚ × ℚ) :
    List (List Aircraft) × MockState × ℚ :=
  let t2 := acc.2.2 + tk.1
  let r := get_aircraft_in_radius g u t2 tk.2.1 tk.2.2.1 tk.2.2.2 acc.2.1
  (acc.1 ++ [r.1], r.2, t2)

/-- A driven simulator session starting from a freshly constructed MockAPI
at absolute time t0: fold the polling step over the tick list, returning
the sequence of query results and the final simulator state. -/
def runMock (g : Geo) (u : ℕ → ℚ) (num_aircraft : ℕ) (t0 : ℚ)
    (ticks : List (ℚ × ℚ × ℚ × ℚ)) : List (List Aircraft) × MockState :=
  let r := ticks.foldl (mockStep g u) ([], mkMockAPI num_aircraft t0, t0)
  (r.1, r.2.1)

/-- Shift the stored timestamp of an aircraft record by c, leaving every
other field unchanged. -/
def shiftA (c : ℚ) (a : Aircraft) : Aircraft :=
  { a with last_update := a.last_update + c }

/-- Shift every cached timestamp by c. -/
def shiftCache (c : ℚ) (l : List (String × Aircraft)) : List (String × Aircraft) :=
  l.map fun e => (e.1, shiftA c e.2)

/-- Shift a simulator state by c: cached timestamps and last_update move,
while the target count and the stream cursor stay. -/
def shiftState (c : ℚ) (s : MockState) : MockState :=
  { s with aircraft_cache := shiftCache c s.aircraft_cache,
           last_update := s.last_update + c }

/-- The timestamp-free observation of an aircraft record: identifier,
callsign, provenance, position and kinematics. -/
def stripA (a : Aircraft) : Aircraft :=
  { a with last_update := 0 }

/-- State held by AircraftTracker (main.py lines 115 to 118): the ICAO id
set of the previous update and the dict of known aircraft by ICAO id. -/
structure TrackerState where
  last_aircraft_set : Finset String
  known_aircraft : List (String × Aircraft)
  deriving DecidableEq

/-- The id set of a fetched list, built as the source builds
current_aircraft_set (main.py lines 134 to 136). -/
def idsOf (l : List Aircraft) : Finset String :=
  l.foldl (fun st a => insert a.icao24 st) ∅

/-- The upsert pass of AircraftTracker.update_aircraft (main.py lines 135
to 137): each fetched record is written into the known-aircraft dict under
its ICAO id; nothing is ever removed. -/
def upsertAll (l : List Aircraft) (m : List (String × Aircraft)) : List (String × Aircraft) :=
  l.foldl (fun m2 a => dictUpsert a.icao24 a m2) m

/-- The success path of AircraftTracker.update_aircraft (main.py lines 133
to 177): compute the current id set, upsert the fetched records, diff
against the previous id set, and replace the previous id set. Returns the
new state together with the arrived and departed id sets. -/
def update_aircraft_ok (s : TrackerState) (aircraft_list : List Aircraft) :
    TrackerState × Finset String × Finset String :=
  let current_aircraft_set := idsOf aircraft_list
  let new_aircraft := current_aircraft_set \ s.last_aircraft_set
  let left_aircraft := s.last_aircraft_set \ current_aircraft_set
  (⟨current_aircraft_set, upsertAll aircraft_list s.known_aircraft⟩,
   new_aircraft, left_aircraft)

/-- AircraftTracker.update_aircraft (main.py lines 120 to 186): the fetch
is the first statement of the try block, so a raising data source reaches
the except handler before any state mutation; the handler logs and
returns, leaving the state unchanged and emitting no arrival or departure
sets. -/
def update_aircraft (s : TrackerState) (fetch : Except String (List Aircraft)) :
    TrackerState × Option (Finset String × Finset String) :=
  match fetch with
  | .error _ => (s, none)
  | .ok l =>
    let r := update_aircraft_ok s l
    (r.1, some r.2)

/-- The polling loop of AircraftTracker.run (main.py lines 218 to 244):
every cycle calls update_aircraft unconditionally on the next fetch
outcome. -/
def run_cycles (s : TrackerState) (fetches : List (Except String (List Aircraft))) :
    TrackerState :=
  fetches.foldl (fun st f => (update_aircraft st f).1) s

/-- The bounding box computed by OpenSkyAPI.get_aircraft_in_radius
(opensky.py lines 90 to 105), returned as lamin, lamax, lomin, lomax.
The source sets the kilometres-per-degree-of-longitude factor to 111.320
times the absolute value of the latitude. -/
def opensky_bounding_box (latitude longitude radius_km : ℚ) : ℚ × ℚ × ℚ × ℚ :=
  let lat_km : ℚ := 110574 / 1000
  let lon_km : ℚ := (111320 / 1000) * |latitude|
  let lat_diff := radius_km / lat_km
  let lon_diff := radius_km / lon_km
  (latitude - lat_diff, latitude + lat_diff, longitude - lon_diff, longitude + lon_diff)

/-- The parse-and-filter loop of OpenSkyAPI.get_aircraft_in_radius
(opensky.py lines 111 to 131) applied to the records parsed from the
response: it keeps exactly the records with a fix within radius_km, in
order, which is the shared radius filter. -/
def opensky_filter_states (g : Geo) (latitude longitude radius_km : ℚ)
    (parsed : List Aircraft) : List Aircraft :=
  filterByRadius g latitude longitude radius_km parsed

/-- State of RadarDisplay (display/radar.py): query radius, optional
center, and the precomputed screen geometry. -/
structure RadarState where
  radius_km : ℚ
  center_lat : Option ℚ
  center_lon : Option ℚ
  center_x : ℤ
  center_y : ℤ
  radar_radius : ℤ
  deriving DecidableEq

/-- Python float truncation toward zero, as applied by int(). -/
def truncQ (q : ℚ) : ℤ := if 0 ≤ q then ⌊q⌋ else ⌈q⌉

/-- Python float modulo: remainder with the sign of the divisor. -/
def qmod (a b : ℚ) : ℚ := a - b * ⌊a / b⌋

/-- The arithmetic core of RadarDisplay._calculate_screen_position
(radar.py lines 101 to 135): geodesic distance and initial bearing from
the center, then the polar-to-screen mapping with truncation. -/
def projectPoint (g : Geo) (radius_km : ℚ) (center_x center_y radar_radius : ℤ)
    (clat clon alat alon : ℚ) : ℤ × ℤ :=
  let distance_km := g.geod (clat, clon) (alat, alon)
  let dlon := alon - clon
  let by2 := g.sindeg dlon * g.cosdeg alat
  let bx2 := g.cosdeg clat * g.sindeg alat - g.sindeg clat * g.cosdeg alat * g.cosdeg dlon
  let bearing := qmod (g.atan2deg by2 bx2 + 360) 360
  let rr := distance_km / radius_km
  let screen_radius := (radar_radius : ℚ) * rr
  (center_x + truncQ (screen_radius * g.cosdeg (90 - bearing)),
   center_y - truncQ (screen_radius * g.sindeg (90 - bearing)))

/-- RadarDisplay._calculate_screen_position (radar.py lines 87 to 135):
when the center or the record position is missing it returns the literal
pair (0, 0); otherwise the projected screen coordinates. -/
def calculate_screen_position (g : Geo) (s : RadarState) (a : Aircraft) : ℤ × ℤ :=
  match s.center_lat, s.center_lon, a.latitude, a.longitude with
  | some clat, some clon, some alat, some alon =>
    projectPoint g s.radius_km s.center_x s.center_y s.radar_radius clat clon alat alon
  | _, _, _, _ => (0, 0)

/-- Modelled from the spec, for comparison with the source projection: the
spec-side projection of section 4.4 returns None when the record has no
position or the center is unset, and the projected coordinates otherwise. -/
def project_spec (g : Geo) (s : RadarState) (a : Aircraft) : Option (ℤ × ℤ) :=
  match s.center_lat, s.center_lon, a.latitude, a.longitude with
  | some clat, some clon, some alat, some alon =>
    some (projectPoint g s.radius_km s.center_x s.center_y s.radar_radius clat clon alat alon)
  | _, _, _, _ => none

/-- The screen-bounds test of RadarDisplay._draw_aircraft (radar.py line
230): a coordinate pair is drawn when it lies inside the terminal grid. -/
def inScreenBounds (width height : ℤ) (p : ℤ × ℤ) : Bool :=
  decide (0 ≤ p.1) && decide (p.1 < width) && decide (0 ≤ p.2) && decide (p.2 < height)

/-- A concrete numeric kernel for evaluating the model on meridian
configurations: distance is the absolute latitude difference scaled by
110.574 km per degree (exact for the meridian arc of the flat model),
cosine of 0 degrees is 1 and sine of 0 degrees is 0. -/
def geoMeridian : Geo :=
  { geod := fun p q => (if p.1 ≤ q.1 then q.1 - p.1 else p.1 - q.1) * (110574 / 1000)
    cosdeg := fun _ => 1
    sindeg := fun _ => 0
    atan2deg := fun _ _ => 0 }

/-- The all-zero numeric kernel, enough to evaluate guard structure. -/
def geoZero : Geo :=
  { geod := fun _ _ => 0
    cosdeg := fun _ => 0
    sindeg := fun _ => 0
    atan2deg := fun _ _ => 0 }

/-- The constant-zero unit-interval random stream. -/
def uZero : ℕ → ℚ := fun _ => 0

/-- A cached simulated aircraft sitting 25 km up the meridian from the
origin, with zero velocity so a tick leaves its position in place. -/
def c3Aircraft : Aircraft :=
  { icao24 := "abc123", callsign := some "TST123", origin_country := none
    latitude := some (12500 / 55287), longitude := some 0, altitude := some 9000
    velocity := some 0, heading := some 0, vertical_rate := some 0, last_update := 0 }

/-- A simulator state holding exactly the 25 km aircraft, with target
count 0 so a tick spawns nothing. -/
def c3State : MockState :=
  { num_aircraft := 0, aircraft_cache := [("abc123", c3Aircraft)], last_update := 0, rng := 0 }

/-- The record spawned by a fresh single-aircraft simulator driven by the
constant-zero stream at time 10 with query radius 10 from the origin:
the distance draw is 24 km, the bearing draw 0 degrees. -/
def c4Spawned : Aircraft :=
  { icao24 := "000000", callsign := some "SWR100", origin_country := some "Mock Country"
    latitude := some (4000 / 18429), longitude := some 0, altitude := some 3000
    velocity := some 200, heading := some 0, vertical_rate := some (-5), last_update := 10 }

/-- A fetched record with identifier aaaaaa and no position. -/
def acA : Aircraft :=
  { icao24 := "aaaaaa", callsign := some "AAA111", origin_country := none
    latitude := none, longitude := none, altitude := none
    velocity := none, heading := none, vertical_rate := none, last_update := 0 }

/-- A fetched record with identifier bbbbbb and no position. -/
def acB : Aircraft :=
  { icao24 := "bbbbbb", callsign := none, origin_country := none
    latitude := none, longitude := none, altitude := none
    velocity := none, heading := none, vertical_rate := none, last_update := 0 }

/-- The tracker state at startup: empty previous id set, empty dict. -/
def trackerInit : TrackerState :=
  { last_aircraft_set := ∅, known_aircraft := [] }

/-- A radar display whose center was never set, on an 80 by 24 terminal. -/
def radarNoCenter : RadarState :=
  { radius_km := 10, center_lat := none, center_lon := some 0
    center_x := 40, center_y := 12, radar_radius := 7 }

/-- A radar display centered at the origin, on an 80 by 24 terminal. -/
def radarAtOrigin : RadarState :=
  { radius_km := 10, center_lat := some 0, center_lon := some 0
    center_x := 40, center_y := 12, radar_radius := 7 }

/-- A record with a fix, for driving the projection. -/
def acFixed : Aircraft :=
  { icao24 := "cccccc", callsign := none, origin_country := none
    latitude := some 1, longitude := some 2, altitude := none
    velocity := none, heading := none, vertical_rate := none, last_update := 0 }

/-- Membership in the fold that builds an id set from a fetched list. -/
theorem mem_foldl_insert (l : List Aircraft) (init : Finset String) (k : String) :
    k ∈ l.foldl (fun st a => insert a.icao24 st) init ↔
      k ∈ init ∨ ∃ a ∈ l, a.icao24 = k := by
  induction l generalizing init with
  | nil => simp
  | cons a t ih =>
    simp only [List.foldl_cons, ih, Finset.mem_insert, List.mem_cons]
    constructor
    · rintro ((h | h) | ⟨b, hb, hk⟩)
      · exact Or.inr ⟨a, Or.inl rfl, h.symm⟩
      · exact Or.inl h
      · exact Or.inr ⟨b, Or.inr hb, hk⟩
    · rintro (h | ⟨b, (rfl | hb), hk⟩)
      · exact Or.inl (Or.inr h)
      · exact Or.inl (Or.inl hk.symm)
      · exact Or.inr ⟨b, hb, hk⟩

/-- The id set of a fetched list contains exactly the fetched ids. -/
theorem mem_idsOf (l : List Aircraft) (k : String) :
    k ∈ idsOf l ↔ ∃ a ∈ l, a.icao24 = k := by
  simp [idsOf, mem_foldl_insert]

/-- Lookup after an upsert under the same key yields the new value. -/
theorem dictFind_upsert_self (j : String) (v : Aircraft) (m : List (String × Aircraft)) :
    dictFind j (dictUpsert j v m) = some v := by
  induction m with
  | nil => simp [dictUpsert, dictFind]
  | cons e t ih =>
    by_cases h : e.1 = j
    · simp [dictUpsert, dictFind, h]
    · simp [dictUpsert, dictFind, h, ih]

/-- Lookup under a different key is unchanged by an upsert. -/
theorem dictFind_upsert_ne (j k : String) (v : Aircraft) (m : List (String × Aircraft))
    (h : j ≠ k) : dictFind k (dictUpsert j v m) = dictFind k m := by
  induction m with
  | nil => simp [dictUpsert, dictFind, h]
  | cons e t ih =>
    by_cases he : e.1 = j
    · simp [dictUpsert, dictFind, he, h, ih]
    · by_cases hk : e.1 = k
      · simp [dictUpsert, dictFind, he, hk, Ne.symm h]
      · simp [dictUpsert, dictFind, he, hk, ih]

/-- Upserting a list of records touches no key outside the list. -/
theorem dictFind_upsertAll_notin (l : List Aircraft) (m : List (String × Aircraft))
    (k : String) (h : ∀ a ∈ l, a.icao24 ≠ k) :
    dictFind k (upsertAll l m) = dictFind k m := by
  induction l generalizing m with
  | nil => rfl
  | cons a t ih =>
    have ha : a.icao24 ≠ k := h a (List.mem_cons_self a t)
    calc dictFind k (upsertAll t (dictUpsert a.icao24 a m))
        = dictFind k (dictUpsert a.icao24 a m) := ih _ (fun b hb => h b (List.mem_cons_of_mem a hb))
      _ = dictFind k m := dictFind_upsert_ne _ _ _ _ ha

/-- Every id fetched in a list is present after upserting the list, bound
to a fetched record carrying that id. -/
theorem dictFind_upsertAll_mem (l : List Aircraft) (m : List (String × Aircraft))
    (k : String) (h : ∃ a ∈ l, a.icao24 = k) :
    ∃ b, dictFind k (upsertAll l m) = some b ∧ b ∈ l ∧ b.icao24 = k := by
  induction l generalizing m with
  | nil => simp at h
  | cons a t ih =>
    by_cases hx : ∃ b ∈ t, b.icao24 = k
    · obtain ⟨b, hb, hbk, hbm⟩ := ih (dictUpsert a.icao24 a m) hx
      exact ⟨b, hb, List.mem_cons_of_mem a hbk, hbm⟩
    · rcases h with ⟨c, hc, hck⟩
      rcases List.mem_cons.mp hc with rfl | hct
      · refine ⟨c, ?_, List.mem_cons_self c t, hck⟩
        have hn : ∀ b ∈ t, b.icao24 ≠ k := by
          intro b hb hbk
          exact hx ⟨b, hb, hbk⟩
        calc dictFind k (upsertAll t (dictUpsert c.icao24 c m))
            = dictFind k (dictUpsert c.icao24 c m) := dictFind_upsertAll_notin t _ k hn
          _ = some c := by rw [hck]; exact dictFind_upsert_self k c m
      · exact absurd ⟨c, hct, hck⟩ hx

/-- C1: for two successive update steps observing id sets S1 then S2, the
arrived set is S2 minus S1 and the departed set is S1 minus S2; identical
successive id sets yield empty arrived and departed sets. -/
theorem tracker_update_diff (s : TrackerState) (l1 l2 : List Aircraft) :
    (update_aircraft_ok (update_aircraft_ok s l1).1 l2).2.1 = idsOf l2 \ idsOf l1 ∧
    (update_aircraft_ok (update_aircraft_ok s l1).1 l2).2.2 = idsOf l1 \ idsOf l2 ∧
    (∀ k, k ∈ (update_aircraft_ok (update_aircraft_ok s l1).1 l2).2.1 ↔
      (∃ a ∈ l2, a.icao24 = k) ∧ ¬ ∃ a ∈ l1, a.icao24 = k) ∧
    (idsOf l1 = idsOf l2 →
      (update_aircraft_ok (update_aircraft_ok s l1).1 l2).2.1 = ∅ ∧
      (update_aircraft_ok (update_aircraft_ok s l1).1 l2).2.2 = ∅) := by
  refine ⟨rfl, rfl, ?_, ?_⟩
  · intro k
    simp [update_aircraft_ok, Finset.mem_sdiff, mem_idsOf]
  · intro h
    constructor
    · show idsOf l2 \ idsOf l1 = ∅
      rw [← h, Finset.sdiff_self]
    · show idsOf l1 \ idsOf l2 = ∅
      rw [h, Finset.sdiff_self]

/-- Witness for tracker_update_diff: repeating the same fetched list
yields empty arrived and departed sets on the second update. -/
theorem tracker_update_diff_witness :
    (update_aircraft_ok (update_aircraft_ok trackerInit [acA]).1 [acA]).2.1 = ∅ ∧
    (update_aircraft_ok (update_aircraft_ok trackerInit [acA]).1 [acA]).2.2 = ∅ :=
  (tracker_update_diff trackerInit [acA] [acA]).2.2.2 rfl

/-- C2: a get_aircraft_in_radius call returns exactly the post-tick cached
records that have a fix and lie within the query radius, via the same
filter the OpenSky adapter applies to its parsed records. -/
theorem radius_filter_exact (g : Geo) (u : ℕ → ℚ) (t lat lon r : ℚ) (s : MockState) :
    (get_aircraft_in_radius g u t lat lon r s).1 =
      filterByRadius g lat lon r
        ((get_aircraft_in_radius g u t lat lon r s).2.aircraft_cache.map Prod.snd) ∧
    (∀ l (a : Aircraft), a ∈ filterByRadius g lat lon r l ↔
      a ∈ l ∧ hasFix a = true ∧ g.geod (lat, lon) (posOf a) ≤ r) ∧
    (∀ parsed, opensky_filter_states g lat lon r parsed = filterByRadius g lat lon r parsed) := by
  refine ⟨rfl, ?_, fun _ => rfl⟩
  intro l a
  simp [filterByRadius, List.mem_filter]

/-- C5 counterexample: after fetching the list holding only record bbbbbb,
the known-aircraft map still holds the earlier record aaaaaa even though
aaaaaa is absent from the new list, so the map is not replaced by the new
list. -/
theorem tracker_map_keeps_departed :
    dictFind "aaaaaa"
      ((update_aircraft_ok (update_aircraft_ok trackerInit [acA]).1 [acB]).1).known_aircraft
      = some acA ∧
    "aaaaaa" ∉ idsOf [acB] := by
  exact ⟨rfl, by decide⟩

/-- C5 amended: an update cycle upserts the fetched records into the
id-to-record map; every fetched id is present afterwards, bound to a
fetched record with that id, and every id absent from the fetched list
keeps its previous binding, so entries are never removed. -/
theorem tracker_map_upsert (s : TrackerState) (l : List Aircraft) :
    (∀ k, k ∉ idsOf l →
      dictFind k ((update_aircraft_ok s l).1).known_aircraft = dictFind k s.known_aircraft) ∧
    (∀ a ∈ l,
      ∃ b, dictFind a.icao24 ((update_aircraft_ok s l).1).known_aircraft = some b ∧
        b ∈ l ∧ b.icao24 = a.icao24) := by
  constructor
  · intro k hk
    have h : ∀ a ∈ l, a.icao24 ≠ k := by
      intro a ha hak
      exact hk ((mem_idsOf l k).mpr ⟨a, ha, hak⟩)
    exact dictFind_upsertAll_notin l s.known_aircraft k h
  · intro a ha
    exact dictFind_upsertAll_mem l s.known_aircraft a.icao24 ⟨a, ha, rfl⟩

/-- Witness for tracker_map_upsert: a concrete cycle retains the stale
entry aaaaaa and binds the fetched id to its fetched record. -/
theorem tracker_map_upsert_witness :
    dictFind "zzzzzz" ((update_aircraft_ok trackerInit [acA]).1).known_aircraft =
      dictFind "zzzzzz" trackerInit.known_aircraft ∧
    ∃ b, dictFind acA.icao24 ((update_aircraft_ok trackerInit [acA]).1).known_aircraft = some b ∧
      b ∈ [acA] ∧ b.icao24 = acA.icao24 :=
  ⟨(tracker_map_upsert trackerInit [acA]).1 "zzzzzz" (by decide),
   (tracker_map_upsert trackerInit [acA]).2 acA (List.mem_singleton.mpr rfl)⟩

/-- C6 counterexample: with the center unset and a record that has a fix,
the source projection returns the screen coordinate pair (0, 0), which
lies inside the terminal bounds, while the spec-side projection returns
None; the source never returns a non-displayable value. -/
theorem screen_position_not_none :
    calculate_screen_position geoZero radarNoCenter acFixed = (0, 0) ∧
    inScreenBounds 80 24 (0, 0) = true ∧
    project_spec geoZero radarNoCenter acFixed = none :=
  ⟨rfl, rfl, rfl⟩

/-- C6 amended: the source projection returns the sentinel pair (0, 0),
not None, whenever the record position or the center is missing, and
agrees with the spec-side projected coordinates whenever both are
present. -/
theorem screen_position_sentinel (g : Geo) (s : RadarState) (a : Aircraft) :
    calculate_screen_position g s a = (project_spec g s a).getD (0, 0) ∧
    ((project_spec g s a).isNone ↔
      (s.center_lat.isNone || s.center_lon.isNone ||
        a.latitude.isNone || a.longitude.isNone) = true) := by
  rcases h1 : s.center_lat <;> rcases h2 : s.center_lon <;>
    rcases h3 : a.latitude <;> rcases h4 : a.longitude <;>
      simp [calculate_screen_position, project_spec, h1, h2, h3, h4]

/-- C7: at latitude 60 with radius 10 km the bounding box of the OpenSky
adapter has longitude half-width 10 divided by 111.320 times 60, the
absolute latitude, rather than the value 10 divided by 111.320 times
cosine of 60 degrees, whose cosine factor is exactly one half; the
latitude half-width does match the claimed 10 divided by 110.574. -/
theorem opensky_bbox_abs_latitude :
    (opensky_bounding_box 60 0 10).2.2.2 = 25 / 16698 ∧
    ((25 : ℚ) / 16698 ≠ 10 / ((111320 / 1000) * (1 / 2))) ∧
    (opensky_bounding_box 60 0 10).2.1 = 60 + 10 / (110574 / 1000) := by
  refine ⟨?_, by norm_num, ?_⟩ <;> norm_num [opensky_bounding_box]

/-- C8: a failing fetch leaves the tracker state unchanged and produces no
arrival or departure output, and the polling loop goes on to process the
remaining cycles exactly as if the failing cycle had been skipped. -/
theorem update_error_keeps_state (s : TrackerState) (e : String)
    (rest : List (Except String (List Aircraft))) :
    update_aircraft s (Except.error e) = (s, none) ∧
    run_cycles s (Except.error e :: rest) = run_cycles s rest :=
  ⟨rfl, rfl⟩

/-- C3 counterexample: with query radius 10 km, a tick performed by
get_aircraft_in_radius keeps a cached aircraft sitting 25 km from the
center, although 25 exceeds 2 times the query radius: the retire threshold
is 2 times the passed max_radius_km, which is 3 times the query radius. -/
theorem retire_uses_triple_radius :
    (get_aircraft_in_radius geoMeridian uZero 10 0 0 10 c3State).2.aircraft_cache
      = [("abc123", { c3Aircraft with last_update := 10 })] ∧
    geoMeridian.geod (0, 0) (posOf { c3Aircraft with last_update := 10 }) = 25 ∧
    ¬ (25 : ℚ) ≤ 2 * 10 := by
  refine ⟨?_, ?_, by norm_num⟩
  · norm_num [get_aircraft_in_radius, update_aircraft_positions, advanceRetire, advanceEntry,
      spawnLoop, dictUpsert, filterByRadius, c3State, c3Aircraft, geoMeridian, uZero, mkMockAPI,
      posOf, hasFix]
    simp only [List.filterMap_cons, List.filterMap_nil]
    norm_num
  · norm_num [c3Aircraft, geoMeridian, posOf]

/-- C3 amended: during the advance-and-retire phase of a tick triggered by
a query with radius radius_km, every surviving entry whose cached record
carries full motion data lies within 2 times the tick radius of
3 times radius_km, hence within 6 times the query radius; entries lacking
position, heading or velocity are skipped and never retired. -/
theorem retire_bound (g : Geo) (td t clat clon radius_km : ℚ)
    (cache : List (String × Aircraft)) (k : String) (a2 : Aircraft)
    (hmem : (k, a2) ∈ advanceRetire g td t clat clon (radius_km * 3) cache)
    (hdata : ∀ e ∈ cache, e.1 = k → fullData e.2 = true) :
    g.geod (clat, clon) (posOf a2) ≤ radius_km * 3 * 2 := by
  obtain ⟨e, he, heq⟩ := List.mem_filterMap.mp hmem
  rcases hopt : advanceEntry g td t clat clon (radius_km * 3) e.2 with _ | a3
  · rw [hopt] at heq
    simp at heq
  · rw [hopt] at heq
    simp only [Option.map_some'] at heq
    have hek : e.1 = k := congrArg Prod.fst (Option.some.inj heq)
    have ha3 : a3 = a2 := congrArg Prod.snd (Option.some.inj heq)
    have hfull := hdata e he hek
    simp only [fullData, Bool.and_eq_true] at hfull
    obtain ⟨⟨⟨hla, hlo⟩, hhd⟩, hvl⟩ := hfull
    rcases hq1 : e.2.latitude with _ | la
    · rw [hq1] at hla; simp at hla
    rcases hq2 : e.2.longitude with _ | lo
    · rw [hq2] at hlo; simp at hlo
    rcases hq3 : e.2.heading with _ | hd
    · rw [hq3] at hhd; simp at hhd
    rcases hq4 : e.2.velocity with _ | vl
    · rw [hq4] at hvl; simp at hvl
    simp only [advanceEntry, hq1, hq2, hq3, hq4] at hopt
    split at hopt
    · exact absurd hopt (by simp)
    · rename_i hle
      rw [← ha3, ← Option.some.inj hopt]
      simpa [posOf] using le_of_not_lt hle

/-- Witness for retire_bound at a concrete one-aircraft cache. -/
theorem retire_bound_witness :
    geoMeridian.geod (0, 0) (posOf { c3Aircraft with last_update := 10 }) ≤ 10 * 3 * 2 :=
  retire_bound geoMeridian 10 10 0 0 10 [("abc123", c3Aircraft)] "abc123"
    { c3Aircraft with last_update := 10 }
    (by norm_num [advanceRetire, advanceEntry, c3Aircraft, geoMeridian])
    (by simp [c3Aircraft, fullData])

/-- C4 counterexample: with query radius 10 km, the tick performed by
get_aircraft_in_radius on a fresh single-aircraft simulator driven by the
constant-zero stream spawns its entity 24 km from the center, although the
claimed spawn interval tops out at 1.5 times the query radius, 15 km: the
spawn band scales with the tick radius of 3 times the query radius. -/
theorem spawn_uses_triple_radius :
    (get_aircraft_in_radius geoMeridian uZero 10 0 0 10 (mkMockAPI 1 0)).2.aircraft_cache
      = [("000000", c4Spawned)] ∧
    geoMeridian.geod (0, 0) (posOf c4Spawned) = 24 ∧
    ¬ (24 : ℚ) ≤ (15 / 10) * 10 := by
  refine ⟨?_, ?_, by norm_num⟩
  · norm_num [get_aircraft_in_radius, update_aircraft_positions, advanceRetire, advanceEntry,
      spawnLoop, spawnOne, dictUpsert, filterByRadius, c4Spawned, geoMeridian, uZero, mkMockAPI,
      posOf, hasFix, uniform, generate_icao24, generate_callsign, pick, randint,
      AIRLINES, HEXDIGITS, List.range, List.range.loop]
    all_goals decide
  · norm_num [c4Spawned, geoMeridian, posOf]

/-- C4 amended: a spawn performed during a tick with query radius
radius_km draws its offset distance uniformly from the band between
0.8 and 1.5 times the tick radius of 3 times radius_km, i.e. between
2.4 and 4.5 times the query radius, and places the new entity at the
flat-earth offset of that distance along the drawn bearing. -/
theorem spawn_distance_band (g : Geo) (u : ℕ → ℚ) (n : ℕ) (t clat clon radius_km : ℚ)
    (hr : 0 ≤ radius_km) (hu : ∀ m, 0 ≤ u m ∧ u m < 1) :
    ∃ d b : ℚ, radius_km * 3 * (8 / 10) ≤ d ∧ d ≤ radius_km * 3 * (15 / 10) ∧
      (spawnOne g u n t clat clon (radius_km * 3)).1.latitude
        = some (clat + d * g.cosdeg b / (110574 / 1000)) ∧
      (spawnOne g u n t clat clon (radius_km * 3)).1.longitude
        = some (clon + d * g.sindeg b / ((111320 / 1000) * g.cosdeg clat)) := by
  have hba : (0 : ℚ) ≤ radius_km * 3 * (15 / 10) - radius_km * 3 * (8 / 10) := by nlinarith
  refine ⟨uniform (radius_km * 3 * (8 / 10)) (radius_km * 3 * (15 / 10)) (u n),
          uniform 0 360 (u (n + 1)), ?_, ?_, rfl, rfl⟩
  · have h0 := mul_nonneg hba (hu n).1
    simp only [uniform]
    linarith
  · have h1 := mul_le_of_le_one_right hba (le_of_lt (hu n).2)
    simp only [uniform]
    linarith

/-- Witness for spawn_distance_band on the constant-zero stream. -/
theorem spawn_distance_band_witness :
    ∃ d b : ℚ, (10 : ℚ) * 3 * (8 / 10) ≤ d ∧ d ≤ (10 : ℚ) * 3 * (15 / 10) ∧
      (spawnOne geoMeridian uZero 0 10 0 0 ((10 : ℚ) * 3)).1.latitude
        = some (0 + d * geoMeridian.cosdeg b / (110574 / 1000)) ∧
      (spawnOne geoMeridian uZero 0 10 0 0 ((10 : ℚ) * 3)).1.longitude
        = some (0 + d * geoMeridian.sindeg b / ((111320 / 1000) * geoMeridian.cosdeg 0)) :=
  spawn_distance_band geoMeridian uZero 0 10 0 0 10 (by norm_num)
    (fun m => ⟨by norm_num [uZero], by norm_num [uZero]⟩)

/-- An upsert grows the cache by at most one entry. -/
theorem length_dictUpsert_le (k : String) (v : Aircraft) (l : List (String × Aircraft)) :
    (dictUpsert k v l).length ≤ l.length + 1 := by
  induction l with
  | nil => simp [dictUpsert]
  | cons e t ih =>
    by_cases h : e.1 = k
    · simp only [dictUpsert, if_pos h, List.length_cons]
      omega
    · simp only [dictUpsert, if_neg h, List.length_cons]
      omega

/-- The spawn loop never grows the cache beyond the target count. -/
theorem spawnLoop_length_le (g : Geo) (u : ℕ → ℚ) (t clat clon mr : ℚ) (num : ℕ) :
    ∀ (fuel : ℕ) (cache : List (String × Aircraft)) (n : ℕ), cache.length ≤ num →
      ((spawnLoop g u t clat clon mr num fuel (cache, n)).1).length ≤ num := by
  intro fuel
  induction fuel with
  | zero => intro cache n h; exact h
  | succ f ih =>
    intro cache n h
    by_cases hl : cache.length < num
    · simp only [spawnLoop, if_pos hl]
      apply ih
      have hup := length_dictUpsert_le
        (spawnOne g u n t clat clon mr).1.icao24 (spawnOne g u n t clat clon mr).1 cache
      omega
    · simp only [spawnLoop, if_neg hl]
      exact h

/-- A tick preserves the cache-size bound. -/
theorem tick_length_le (g : Geo) (u : ℕ → ℚ) (t clat clon mr : ℚ) (s : MockState)
    (h : s.aircraft_cache.length ≤ s.num_aircraft) :
    (update_aircraft_positions g u t clat clon mr s).aircraft_cache.length ≤ s.num_aircraft := by
  unfold update_aircraft_positions
  by_cases hd : t - s.last_update < 1
  · simp only [if_pos hd]
    exact h
  · simp only [if_neg hd]
    apply spawnLoop_length_le
    calc (advanceRetire g (t - s.last_update) t clat clon mr s.aircraft_cache).length
        ≤ s.aircraft_cache.length := List.length_filterMap_le _ _
      _ ≤ s.num_aircraft := h

/-- A tick never changes the configured target count. -/
theorem tick_num_eq (g : Geo) (u : ℕ → ℚ) (t clat clon mr : ℚ) (s : MockState) :
    (update_aircraft_positions g u t clat clon mr s).num_aircraft = s.num_aircraft := by
  unfold update_aircraft_positions
  by_cases hd : t - s.last_update < 1
  · simp only [if_pos hd]
  · simp only [if_neg hd]

/-- Invariant of a driven session: the cache stays within the target count,
the target count is constant, and every emitted result list is within the
target count. -/
theorem runMock_bounded_aux (g : Geo) (u : ℕ → ℚ) (num : ℕ)
    (ticks : List (ℚ × ℚ × ℚ × ℚ)) :
    ∀ (outs : List (List Aircraft)) (s : MockState) (t : ℚ),
      s.aircraft_cache.length ≤ num → s.num_aircraft = num →
      ((outs.map List.length).all fun x => decide (x ≤ num)) = true →
      (ticks.foldl (mockStep g u) (outs, s, t)).2.1.aircraft_cache.length ≤ num ∧
      (ticks.foldl (mockStep g u) (outs, s, t)).2.1.num_aircraft = num ∧
      (((ticks.foldl (mockStep g u) (outs, s, t)).1.map List.length).all
        fun x => decide (x ≤ num)) = true := by
  induction ticks with
  | nil =>
    intro outs s t h1 h2 h3
    exact ⟨h1, h2, h3⟩
  | cons tk rest ih =>
    intro outs s t h1 h2 h3
    simp only [List.foldl_cons]
    have hs1 : s.aircraft_cache.length ≤ s.num_aircraft := by omega
    have hcache := tick_length_le g u (t + tk.1) tk.2.1 tk.2.2.1 (tk.2.2.2 * 3) s hs1
    have hnum := tick_num_eq g u (t + tk.1) tk.2.1 tk.2.2.1 (tk.2.2.2 * 3) s
    have hout : ((get_aircraft_in_radius g u (t + tk.1) tk.2.1 tk.2.2.1 tk.2.2.2 s).1).length
        ≤ num := by
      calc ((get_aircraft_in_radius g u (t + tk.1) tk.2.1 tk.2.2.1 tk.2.2.2 s).1).length
          ≤ ((update_aircraft_positions g u (t + tk.1) tk.2.1 tk.2.2.1 (tk.2.2.2 * 3)
              s).aircraft_cache.map Prod.snd).length := List.length_filter_le _ _
        _ = (update_aircraft_positions g u (t + tk.1) tk.2.1 tk.2.2.1 (tk.2.2.2 * 3)
              s).aircraft_cache.length := List.length_map _ _
        _ ≤ num := by omega
    apply ih
    · show (update_aircraft_positions g u (t + tk.1) tk.2.1 tk.2.2.1 (tk.2.2.2 * 3)
        s).aircraft_cache.length ≤ num
      omega
    · show (update_aircraft_positions g u (t + tk.1) tk.2.1 tk.2.2.1 (tk.2.2.2 * 3)
        s).num_aircraft = num
      omega
    · show (((outs ++ [(get_aircraft_in_radius g u (t + tk.1) tk.2.1 tk.2.2.1 tk.2.2.2 s).1]).map
        List.length).all fun x => decide (x ≤ num)) = true
      simp only [List.map_append, List.all_append, h3, Bool.true_and, List.map_cons,
        List.map_nil, List.all_cons, List.all_nil, Bool.and_true, decide_eq_true_eq]
      exact hout

/-- C10: a session starting from a freshly constructed simulator keeps at
most num_aircraft cached entries at every point, and no
get_aircraft_in_radius call ever returns more than num_aircraft records. -/
theorem mock_cache_bounded (g : Geo) (u : ℕ → ℚ) (num : ℕ) (t0 : ℚ)
    (ticks : List (ℚ × ℚ × ℚ × ℚ)) :
    (runMock g u num t0 ticks).2.aircraft_cache.length ≤ num ∧
    (((runMock g u num t0 ticks).1.map List.length).all fun x => decide (x ≤ num)) = true := by
  have h := runMock_bounded_aux g u num ticks [] (mkMockAPI num t0) t0
    (by simp [mkMockAPI]) rfl rfl
  exact ⟨h.1, h.2.2⟩

/-- Advancing a time-shifted record at the shifted clock is the shift of
advancing the record: the advance step reads only position, heading and
velocity, and stamps the current clock. -/
theorem advanceEntry_shift (g : Geo) (td t c clat clon mr : ℚ) (a : Aircraft) :
    advanceEntry g td (t + c) clat clon mr (shiftA c a)
      = Option.map (shiftA c) (advanceEntry g td t clat clon mr a) := by
  rcases a with ⟨ic, cs, oc, la, lo, al, ve, he, vr, lu⟩
  rcases la with _ | la <;> rcases lo with _ | lo <;> rcases he with _ | he <;>
    rcases ve with _ | ve <;> simp only [advanceEntry, shiftA] <;> try rfl
  split <;> rfl

/-- The advance-and-retire pass commutes with a time shift of the cache. -/
theorem advanceRetire_shift (g : Geo) (td t c clat clon mr : ℚ)
    (cache : List (String × Aircraft)) :
    advanceRetire g td (t + c) clat clon mr (shiftCache c cache)
      = shiftCache c (advanceRetire g td t clat clon mr cache) := by
  induction cache with
  | nil => rfl
  | cons e rest ih =>
    simp only [shiftCache, List.map_cons, advanceRetire, List.filterMap_cons] at ih ⊢
    rw [advanceEntry_shift]
    rcases h : advanceEntry g td t clat clon mr e.2 with _ | a2 <;> simp [h, ih]

/-- A spawn at the shifted clock is the shift of the spawn: the drawn
values depend only on the stream cursor. -/
theorem spawnOne_shift (g : Geo) (u : ℕ → ℚ) (n : ℕ) (t c clat clon mr : ℚ) :
    spawnOne g u n (t + c) clat clon mr
      = (shiftA c (spawnOne g u n t clat clon mr).1, (spawnOne g u n t clat clon mr).2) :=
  rfl

/-- A dict upsert commutes with a time shift of the cache. -/
theorem dictUpsert_shift (k : String) (v : Aircraft) (c : ℚ)
    (l : List (String × Aircraft)) :
    dictUpsert k (shiftA c v) (shiftCache c l) = shiftCache c (dictUpsert k v l) := by
  induction l with
  | nil => rfl
  | cons e rest ih =>
    by_cases h : e.1 = k
    · simp [dictUpsert, shiftCache, h]
    · simp only [shiftCache, List.map_cons, dictUpsert, if_neg h]
      simp only [shiftCache] at ih
      rw [ih]

/-- The spawn loop commutes with a time shift of the cache. -/
theorem spawnLoop_shift (g : Geo) (u : ℕ → ℚ) (t c clat clon mr : ℚ) (num : ℕ) :
    ∀ (fuel : ℕ) (cache : List (String × Aircraft)) (n : ℕ),
      spawnLoop g u (t + c) clat clon mr num fuel (shiftCache c cache, n)
        = (shiftCache c (spawnLoop g u t clat clon mr num fuel (cache, n)).1,
           (spawnLoop g u t clat clon mr num fuel (cache, n)).2) := by
  intro fuel
  induction fuel with
  | zero => intro cache n; rfl
  | succ f ih =>
    intro cache n
    have hlen : (shiftCache c cache).length = cache.length := List.length_map _ _
    by_cases hl : cache.length < num
    · simp only [spawnLoop, hlen, if_pos hl, spawnOne_shift]
      rw [show (shiftA c (spawnOne g u n t clat clon mr).1).icao24
            = (spawnOne g u n t clat clon mr).1.icao24 from rfl,
          dictUpsert_shift]
      exact ih _ _
    · simp only [spawnLoop, hlen, if_neg hl]

/-- The radius filter commutes with a time shift of the records. -/
theorem filterByRadius_shift (g : Geo) (lat lon r c : ℚ) (l : List Aircraft) :
    filterByRadius g lat lon r (l.map (shiftA c))
      = (filterByRadius g lat lon r l).map (shiftA c) := by
  unfold filterByRadius
  rw [List.filter_map]
  congr 1

/-- A tick at the shifted clock on the shifted state is the shift of the
tick: elapsed time, positions and draws are unchanged by the shift. -/
theorem tick_shift (g : Geo) (u : ℕ → ℚ) (t c clat clon mr : ℚ) (s : MockState) :
    update_aircraft_positions g u (t + c) clat clon mr (shiftState c s)
      = shiftState c (update_aircraft_positions g u t clat clon mr s) := by
  unfold update_aircraft_positions
  simp only [shiftState]
  have e1 : t + c - (s.last_update + c) = t - s.last_update := by ring
  rw [e1]
  by_cases hd : t - s.last_update < 1
  · simp only [if_pos hd]
  · simp only [if_neg hd]
    rw [advanceRetire_shift, spawnLoop_shift]

/-- A query at the shifted clock on the shifted state returns the shifted
records and the shifted state. -/
theorem get_in_radius_shift (g : Geo) (u : ℕ → ℚ) (t c lat lon r : ℚ) (s : MockState) :
    get_aircraft_in_radius g u (t + c) lat lon r (shiftState c s)
      = (((get_aircraft_in_radius g u t lat lon r s).1).map (shiftA c),
         shiftState c (get_aircraft_in_radius g u t lat lon r s).2) := by
  unfold get_aircraft_in_radius
  dsimp only
  rw [tick_shift]
  have hm : (shiftState c (update_aircraft_positions g u t lat lon (r * 3)
        s)).aircraft_cache.map Prod.snd
      = ((update_aircraft_positions g u t lat lon (r * 3) s).aircraft_cache.map
          Prod.snd).map (shiftA c) := by
    simp only [shiftState, shiftCache, List.map_map]
    rfl
  rw [hm, filterByRadius_shift]

/-- One polling step at the shifted clock is the shift of the step. -/
theorem mockStep_shift (g : Geo) (u : ℕ → ℚ) (c : ℚ) (outs : List (List Aircraft))
    (s : MockState) (t : ℚ) (tk : ℚ × ℚ × ℚ × ℚ) :
    mockStep g u (outs.map (List.map (shiftA c)), shiftState c s, t + c) tk
      = ((mockStep g u (outs, s, t) tk).1.map (List.map (shiftA c)),
         shiftState c (mockStep g u (outs, s, t) tk).2.1,
         (mockStep g u (outs, s, t) tk).2.2 + c) := by
  unfold mockStep
  have e1 : t + c + tk.1 = t + tk.1 + c := by ring
  simp only
  rw [e1, get_in_radius_shift]
  simp [List.map_append]

/-- A folded polling run at the shifted clock is the shift of the run. -/
theorem foldl_mockStep_shift (g : Geo) (u : ℕ → ℚ) (c : ℚ)
    (ticks : List (ℚ × ℚ × ℚ × ℚ)) :
    ∀ (outs : List (List Aircraft)) (s : MockState) (t : ℚ),
      ticks.foldl (mockStep g u) (outs.map (List.map (shiftA c)), shiftState c s, t + c)
        = (((ticks.foldl (mockStep g u) (outs, s, t)).1).map (List.map (shiftA c)),
           shiftState c (ticks.foldl (mockStep g u) (outs, s, t)).2.1,
           (ticks.foldl (mockStep g u) (outs, s, t)).2.2 + c) := by
  induction ticks with
  | nil => intro outs s t; rfl
  | cons tk rest ih =>
    intro outs s t
    simp only [List.foldl_cons]
    rw [mockStep_shift]
    exact ih (mockStep g u (outs, s, t) tk).1 (mockStep g u (outs, s, t) tk).2.1
      (mockStep g u (outs, s, t) tk).2.2

/-- C9: two simulator sessions with the same seeded stream, the same
target count, the same elapsed-time deltas and the same query arguments
produce identical sequences of results up to stored timestamps, identical
identifier sequences in the final cache (hence identical spawns and
retirements), and identical timestamp-free cached records, regardless of
the absolute construction time. -/
theorem mock_determinism (g : Geo) (u : ℕ → ℚ) (num : ℕ)
    (ticks : List (ℚ × ℚ × ℚ × ℚ)) (t0 t0' : ℚ) :
    (runMock g u num t0' ticks).1.map (List.map stripA)
      = (runMock g u num t0 ticks).1.map (List.map stripA) ∧
    (runMock g u num t0' ticks).2.aircraft_cache.map Prod.fst
      = (runMock g u num t0 ticks).2.aircraft_cache.map Prod.fst ∧
    (runMock g u num t0' ticks).2.aircraft_cache.map (fun e => stripA e.2)
      = (runMock g u num t0 ticks).2.aircraft_cache.map (fun e => stripA e.2) := by
  have hts : t0' = t0 + (t0' - t0) := by ring
  have hinit : (([] : List (List Aircraft)), mkMockAPI num t0', t0')
      = (([] : List (List Aircraft)).map (List.map (shiftA (t0' - t0))),
         shiftState (t0' - t0) (mkMockAPI num t0), t0 + (t0' - t0)) := by
    simp only [List.map_nil, mkMockAPI, shiftState, shiftCache]
    rw [← hts]
  unfold runMock
  rw [hinit, foldl_mockStep_shift]
  have hcomp : stripA ∘ shiftA (t0' - t0) = stripA := funext fun a => rfl
  refine ⟨?_, ?_, ?_⟩
  · rw [List.map_map]
    have h2 : List.map stripA ∘ List.map (shiftA (t0' - t0)) = List.map stripA := by
      funext l2
      rw [Function.comp_apply, List.map_map, hcomp]
    rw [h2]
  · simp only [shiftState, shiftCache, List.map_map]
    have h2 : (Prod.fst ∘ fun (e : String × Aircraft) => (e.1, shiftA (t0' - t0) e.2))
        = Prod.fst := funext fun e => rfl
    rw [h2]
  · simp only [shiftState, shiftCache, List.map_map]
    have h2 : ((fun (e : String × Aircraft) => stripA e.2)
          ∘ fun (e : String × Aircraft) => (e.1, shiftA (t0' - t0) e.2))
        = fun (e : String × Aircraft) => stripA e.2 := funext fun e => rfl
    rw [h2]

end OpenAircraftTracker
